import Mathlib

/-!
Verification development for the llm-coder repository.

The Python source is shallowly embedded: pure string manipulation is
translated to Lean functions over `String`/`List Char`; file I/O is made
explicit by passing the file content in and returning the content after the
call; Python standard-library path functions (`os.path.abspath`,
`os.path.normpath`, `os.path.realpath`, `os.path.dirname`,
`os.path.expanduser`, `os.path.join`) and the `difflib.unified_diff`
routine are external collaborators and are modelled as oracle parameters;
Python exceptions become `Except` errors.
-/

set_option autoImplicit false

/- ### Python string primitives (models of `in`, `replace`, `split`, `strip`, `splitlines`) -/

/-- Boolean test that the first list is a leading segment of the second
(model of Python slice comparison used to detect a substring at a given
position). -/
def leadsList : List Char → List Char → Bool
  | [], _ => true
  | _ :: _, [] => false
  | a :: as, b :: bs => a == b && leadsList as bs

/-- Boolean test that `needle` occurs contiguously inside `hay`: model of
the Python substring operator `needle in hay` (true for an empty needle). -/
def containsSeq : List Char → List Char → Bool
  | needle, [] => leadsList needle []
  | needle, c :: rest => leadsList needle (c :: rest) || containsSeq needle rest

/-- Model of the Python expression `needle in hay` on strings. -/
def pyIn (needle hay : String) : Bool :=
  containsSeq needle.toList hay.toList

/-- Splitting worker with explicit fuel; one unit of fuel is spent per
step and every step consumes at least one character, so fuel
`l.length + 1` always suffices.  Splits on leftmost non-overlapping
occurrences of the (nonempty) separator, exactly like Python `str.split`
with an explicit separator. -/
def splitLFuel (sep : List Char) : Nat → List Char → List Char → List (List Char)
  | 0, l, acc => [acc.reverse ++ l]
  | fuel + 1, l, acc =>
    match l with
    | [] => [acc.reverse]
    | c :: rest =>
      if leadsList sep (c :: rest) then
        acc.reverse :: splitLFuel sep fuel (List.drop (sep.length - 1) rest) []
      else
        splitLFuel sep fuel rest (c :: acc)

/-- Split a character list on a nonempty separator (Python `str.split(sep)`). -/
def splitL (sep l : List Char) : List (List Char) :=
  splitLFuel sep (l.length + 1) l []

/-- Model of Python `s.split(sep)` for a nonempty separator string. -/
def pySplit (s sep : String) : List String :=
  (splitL sep.toList s.toList).map String.mk

/-- Model of Python `s.replace("", new)`: `new` is inserted before every
character and once at the end. -/
def replaceEmptyOld (new : List Char) : List Char → List Char
  | [] => new
  | c :: rest => new ++ c :: replaceEmptyOld new rest

/-- Interleave a separator between the pieces (model of `sep.join(pieces)`). -/
def joinWith (sep : List Char) : List (List Char) → List Char
  | [] => []
  | [x] => x
  | x :: y :: rest => x ++ sep ++ joinWith sep (y :: rest)

/-- Model of Python `s.replace(old, new)`: every non-overlapping occurrence
of `old` is replaced, scanning left to right. -/
def pyReplace (s old new : String) : String :=
  match old.toList with
  | [] => String.mk (replaceEmptyOld new.toList s.toList)
  | _ :: _ => String.mk (joinWith new.toList (splitL old.toList s.toList))

/-- Whitespace characters stripped by Python `str.strip()` (the ASCII ones;
the source only ever strips spaces, tabs and line breaks). -/
def isSpaceChar (c : Char) : Bool :=
  c == ' ' || c == '\t' || c == '\n' || c == '\r' || c == '\x0b' || c == '\x0c'

/-- Model of Python `str.strip()`. -/
def pyStrip (s : String) : String :=
  String.mk (((s.toList.dropWhile isSpaceChar).reverse.dropWhile isSpaceChar).reverse)

/-- Worker for `pySplitlines`: splits on `\n`, `\r\n` and `\r` without
keeping the line breaks, dropping a trailing empty line, exactly like
Python `str.splitlines()` on ASCII input. -/
def splitlinesL : List Char → List Char → List (List Char)
  | [], acc => if acc.isEmpty then [] else [acc.reverse]
  | '\r' :: '\n' :: rest, acc => acc.reverse :: splitlinesL rest []
  | '\n' :: rest, acc => acc.reverse :: splitlinesL rest []
  | '\r' :: rest, acc => acc.reverse :: splitlinesL rest []
  | c :: rest, acc => splitlinesL rest (c :: acc)

/-- Model of Python `str.splitlines()` (ASCII line boundaries). -/
def pySplitlines (s : String) : List String :=
  (splitlinesL s.toList []).map String.mk

/-- Model of Python `"\n".join(lines)`. -/
def joinNl : List String → String
  | [] => ""
  | [x] => x
  | x :: y :: rest => x ++ "\n" ++ joinNl (y :: rest)

/- ### Fence-width selection (filesystem.py lines 361-365) -/

/-- The backtick character (written via its code point). -/
def backtickChar : Char := Char.ofNat 96

/-- A run of `n` backticks as a string (model of the Python expression
that repeats the fence character `n` times). -/
def ticks (n : Nat) : String := String.mk (List.replicate n backtickChar)

/-- Whether the character list contains a run of `n` consecutive backticks. -/
def hasRunL (h : List Char) (n : Nat) : Bool :=
  containsSeq (List.replicate n backtickChar) h

/-- Fueled model of the `while` loop at filesystem.py lines 362-364: keep
growing the candidate fence width while a backtick run of that width still
occurs in the diff.  The loop exits once the width exceeds the diff length,
so fuel `h.length + 1` starting from width 3 always suffices. -/
def chooseFromFuel (h : List Char) : Nat → Nat → Nat
  | 0, n => n
  | fuel + 1, n => if hasRunL h n then chooseFromFuel h fuel (n + 1) else n

/-- The fence width chosen for a diff text (filesystem.py lines 362-364). -/
def chooseBackticks (diff : String) : Nat :=
  chooseFromFuel diff.toList (diff.toList.length + 1) 3

/-- Model of filesystem.py line 365: wrap the diff in a fenced `diff` block. -/
def format_fenced_diff (diff : String) : String :=
  ticks (chooseBackticks diff) ++ "diff\n" ++ diff ++ "\n" ++ ticks (chooseBackticks diff) ++ "\n\n"

/- ### Sandbox path validator (filesystem.py lines 89-195) -/

/-- Python exception values that escape the embedded functions. -/
inductive PyError where
  | valueError (msg : String)
  | typeError (msg : String)
  | attributeError (msg : String)
deriving DecidableEq, Repr

/-- Oracle for the `os.path` standard-library functions used by the source.
They are external collaborators (not repository code), so each concrete
theorem instantiates them with a table consistent with real `os.path`
behaviour on the paths it mentions. -/
structure Os where
  abspath : String → String
  normpath : String → String
  realpath : String → String
  dirname : String → String
  expanduser : String → String
  join : String → String → String

/-- Model of Python `s.startswith(pre)`. -/
def pyStartswith (s pre : String) : Bool :=
  leadsList pre.toList s.toList

/-- filesystem.py lines 89-91: `normalize_path` is `os.path.normpath`. -/
def normalize_path (os : Os) (p : String) : String := os.normpath p

/-- filesystem.py lines 94-100: expand a leading home marker.  Inside the
branch the source computes `filepath[1:] if filepath.startswith("~") else ""`
verbatim, which is kept here. -/
def expand_home (os : Os) (filepath : String) : String :=
  if pyStartswith filepath ("~/") || filepath == "~" then
    os.join (os.expanduser "~") (if pyStartswith filepath ("~") then filepath.drop 1 else "")
  else filepath

/-- Model of Python `", ".join(dirs)`. -/
def joinCommaSpace : List String → String
  | [] => ""
  | [x] => x
  | x :: y :: rest => x ++ ", " ++ joinCommaSpace (y :: rest)

/-- The `ValueError` message built at filesystem.py lines 163-165. -/
def accessDeniedMessage (allowed : List String) (absolute : String) : String :=
  "Access denied - path outside allowed directories: " ++ absolute
    ++ " not in " ++ joinCommaSpace allowed

/-- filesystem.py lines 149-195, `validate_path`.

`os.path.realpath` (with its default `strict=False`) never raises, so the
only exception the outer `try` block at lines 168-179 can see is the
explicit `raise ValueError` at line 175 (symlink target outside the allowed
directories) — which the `except Exception` at line 179 therefore catches,
falling through to the parent-directory fallback.  Likewise the inner
`try` at lines 182-194 only ever catches its own `raise ValueError` at
line 189, replacing it with the parent-does-not-exist message.  The
function below is that control flow written out as nested conditionals. -/
def validate_path (allowed : List String) (os : Os) (requested_path : String) : Except PyError String :=
  let expanded_path := expand_home os requested_path
  let absolute := os.abspath expanded_path
  let normalized_requested := normalize_path os absolute
  if allowed.any (fun d => pyStartswith normalized_requested d) then
    let real_path := os.realpath absolute
    let normalized_real := normalize_path os real_path
    if allowed.any (fun d => pyStartswith normalized_real d) then
      Except.ok real_path
    else
      let parent_dir := os.dirname absolute
      let real_parent_path := os.realpath parent_dir
      let normalized_parent := normalize_path os real_parent_path
      if allowed.any (fun d => pyStartswith normalized_parent d) then
        Except.ok absolute
      else
        Except.error (PyError.valueError ("Parent directory does not exist: " ++ parent_dir))
  else
    Except.error (PyError.valueError (accessDeniedMessage allowed absolute))

/-- filesystem.py lines 399-406, `execute_read_file`.

After validation the source executes
`async with asyncio.to_thread(open, valid_path, "r", encoding="utf-8")`.
`asyncio.to_thread(...)` returns a coroutine object, and a coroutine does
not implement the asynchronous context-manager protocol, so Python raises
`TypeError` at the `async with` before any file I/O happens.  The file
content oracle `readF` is a parameter to make explicit that the result
never depends on it. -/
def execute_read_file (allowed : List String) (os : Os) (readF : String → Option String)
    (path : String) : Except PyError String :=
  match validate_path allowed os path with
  | Except.error e => Except.error e
  | Except.ok _ =>
    Except.error (PyError.typeError
      ("coroutine object does not support the asynchronous context manager protocol"))

/- ### Fuzzy patch engine (filesystem.py lines 255-371) -/

/-- filesystem.py lines 255-257: convert CRLF to LF via `str.replace`. -/
def normalize_line_endings (text : String) : String :=
  pyReplace text ("\r\n") ("\n")

/-- filesystem.py lines 260-279, `create_unified_diff`.  The call to
`difflib.unified_diff` (a standard-library external collaborator) is the
oracle parameter `udiff`, applied to the two `splitlines` results and the
two `fromfile`/`tofile` labels; its output lines are joined with newlines. -/
def create_unified_diff (udiff : List String → List String → String → String → List String)
    (original_content new_content filepath : String) : String :=
  let normalized_original := normalize_line_endings original_content
  let normalized_new := normalize_line_endings new_content
  joinNl (udiff (pySplitlines normalized_original) (pySplitlines normalized_new)
    (filepath ++ " (original)") (filepath ++ " (modified)"))

/-- One edit of an `edit_file` batch (filesystem.py lines 34-36). -/
structure EditOperation where
  oldText : String
  newText : String
deriving DecidableEq, Repr

/-- filesystem.py lines 310-313: a window of content lines matches the old
lines when every `zip`-ped pair is equal after stripping. -/
def windowMatches (old_lines potential_match : List String) : Bool :=
  (List.zip old_lines potential_match).all
    (fun p => pyStrip p.1 == pyStrip p.2)

/-- filesystem.py lines 306-315: index of the first window of
`content_lines` whose stripped lines equal the stripped `old_lines`.
Python iterates `range(len(content_lines) - len(old_lines) + 1)`, which is
empty when the old text has more lines than the content. -/
def findMatchIndex (content_lines old_lines : List String) : Option Nat :=
  if old_lines.length ≤ content_lines.length then
    (List.range (content_lines.length - old_lines.length + 1)).find?
      (fun i => windowMatches old_lines ((content_lines.drop i).take old_lines.length))
  else none

/-- One iteration of the edit loop at filesystem.py lines 292-356.

Exact pass (lines 297-299): if the normalized old text occurs in the
content, `str.replace` substitutes every occurrence.  Fuzzy pass (lines
301-353): when a stripped-line window matches, the very next statement,
`potential_match[0].match(r"^\s*")` at line 318, raises `AttributeError`
because Python strings have no `match` method (the indentation logic at
lines 316-353 was ported from JavaScript and is unreachable beyond that
point).  If no window matches, the `ValueError` at line 356 names the
offending old text. -/
def applyOneEdit (modified_content : String) (edit : EditOperation) : Except PyError String :=
  if pyIn (normalize_line_endings edit.oldText) modified_content then
    Except.ok (pyReplace modified_content (normalize_line_endings edit.oldText)
      (normalize_line_endings edit.newText))
  else
    match findMatchIndex (pySplit modified_content ("\n"))
        (pySplit (normalize_line_endings edit.oldText) ("\n")) with
    | some _ => Except.error (PyError.attributeError ("str object has no attribute match"))
    | none =>
      Except.error (PyError.valueError
        ("Could not find exact match for edit:\n" ++ edit.oldText))

/-- The sequential edit loop of filesystem.py lines 290-356: edit `i+1`
sees the output of edit `i`; the first exception aborts the batch. -/
def applyAllEdits (content : String) : List EditOperation → Except PyError String
  | [] => Except.ok content
  | edit :: rest =>
    match applyOneEdit content edit with
    | Except.error e => Except.error e
    | Except.ok next => applyAllEdits next rest

/-- filesystem.py lines 282-371, `apply_file_edits`.

The file read at line 287 is modelled by the `raw` argument; the write at
lines 367-369 by the second component of the result, which is the on-disk
content after the call (`raw` itself whenever nothing is written).  The
first component is what the Python function returns or raises. -/
def apply_file_edits (udiff : List String → List String → String → String → List String)
    (file_path raw : String) (edits : List EditOperation) (dry_run : Bool) :
    Except PyError String × String :=
  let content := normalize_line_endings raw
  match applyAllEdits content edits with
  | Except.error e => (Except.error e, raw)
  | Except.ok modified_content =>
    let diff := create_unified_diff udiff content modified_content file_path
    let formatted_diff := format_fenced_diff diff
    (Except.ok formatted_diff, if dry_run then raw else modified_content)

/- ### Agent orchestration loop (agent.py) -/

/-- agent.py lines 27-29 and 290-293: a tool call as the loop reads it —
an optional correlation id, the function name, and the raw JSON argument
string. -/
structure ToolCall where
  id : Option String
  fname : String
  arguments : String
deriving DecidableEq, Repr

/-- agent.py lines 32-65: a conversation message.  The source stores
`tool_calls` as `None` or a list and only ever tests it for truthiness,
which identifies `None` with `[]`; the model therefore uses a plain list. -/
structure Message where
  role : String
  content : Option String := none
  tool_calls : List ToolCall := []
  tool_call_id : Option String := none
  name : Option String := none
deriving DecidableEq, Repr

/-- The assistant message a completion-service call yields (content and
tool calls of `response.choices[0].message`). -/
structure AssistantReply where
  content : Option String
  tool_calls : List ToolCall
deriving DecidableEq, Repr

/-- One registered tool: its name and its execution capability, taking the
parsed-argument value (kept opaque as a string) and either returning result
text or raising an error message. -/
structure ToolDef where
  name : String
  execute : String → Except String String

/-- agent.py line 20. -/
def COMPLETION_CHECK_PROMPT : String :=
  "タスクは完了しましたか？まだ必要な操作がある場合は、ツールを呼び出して続行してください。"

/-- agent.py lines 21-23. -/
def FINAL_SUMMARY_PROMPT : String :=
  "タスクが完了しました。実行した内容の要約と結果を教えてください。"

/-- agent.py lines 152-162: the system message of the planning phase. -/
def SYSTEM_PROMPT : String :=
  "あなたは自律型のコーディングエージェントです。提示されたタスクを解決するためにファイルシステム上のコードを読み込み、編集し、必要なら新規作成します。\nタスクを次のステップで実行してください：\n1. タスクを解析し、必要な操作の計画を立てる\n2. 既存のコードを理解するために必要なファイルを読み込む\n3. 具体的な実装計画を立てる\n4. コードを記述、編集し、必要に応じてテストを実行する\n5. 結果を検証し、必要なら修正を行う\n\nファイルシステムツールを使って作業を進めてください。"

/-- agent.py line 427: the exhaustion sentinel returned when
`max_iterations` is reached without completion. -/
def EXHAUSTION_SENTINEL : String :=
  "最大イテレーション数に達しました。タスクは未完了の可能性があります。"

/-- Build the assistant message appended after a completion-service call. -/
def mkAssistant (r : AssistantReply) : Message :=
  { role := "assistant", content := r.content, tool_calls := r.tool_calls }

/-- Build a user message. -/
def mkUser (c : String) : Message :=
  { role := "user", content := some c }

/-- Build the system message. -/
def mkSystem (c : String) : Message :=
  { role := "system", content := some c }

/-- agent.py lines 318-323: the `tool` message answering one tool call. -/
def mkToolMsg (tc : ToolCall) (result : String) : Message :=
  { role := "tool", content := some result, tool_call_id := tc.id, name := some tc.fname }

/-- agent.py lines 106-143, `Agent._execute_tool`: look the tool up by
name; a missing tool or a raising execution capability is converted into a
descriptive text result, never a fault.  (The source wraps the tool name in
single quotation marks inside these messages; the quotation marks are
dropped here.) -/
def execute_tool (tools : List ToolDef) (tool_name : String) (args : String) : String :=
  match tools.find? (fun t => t.name == tool_name) with
  | none => "エラー: ツール " ++ tool_name ++ " が見つからないか実行できません"
  | some t =>
    match t.execute args with
    | Except.ok r => r
    | Except.error e =>
      "エラー: ツール " ++ tool_name ++ " の実行中にエラーが発生しました: " ++ e

/-- agent.py lines 290-330: execute the batch of tool calls sequentially,
appending one `tool` message per call.  `parse` is the oracle for
`json.loads`; a parse failure degrades to the empty-object value. -/
def runToolCalls (tools : List ToolDef) (parse : String → Option String)
    (hist : List Message) (tcs : List ToolCall) : List Message :=
  tcs.foldl
    (fun h tc =>
      h ++ [mkToolMsg tc (execute_tool tools tc.fname ((parse tc.arguments).getD ("\x7b\x7d")))])
    hist

/-- agent.py lines 213-220: the most recent assistant message. -/
def lastAssistant (hist : List Message) : Option Message :=
  hist.reverse.find? (fun m => m.role == "assistant")

/-- Python truthiness of the optional `content` field. -/
def contentTruthy (c : Option String) : Bool :=
  match c with
  | none => false
  | some s => !(s == "")

/-- agent.py lines 208-374, `Agent._execution_phase`.

The completion service `svc` is the oracle for `litellm.acompletion`; a
`.error` from it models the raised exception, which the phase re-raises.
The result carries the completion flag, the updated history, and whether
this phase processed a batch of tool calls (used to count tool-execution
rounds). -/
def execution_phase (svc : List Message → Except String AssistantReply)
    (tools : List ToolDef) (parse : String → Option String)
    (hist : List Message) : Except String (Bool × List Message × Bool) :=
  match lastAssistant hist with
  | none => Except.ok (false, hist, false)
  | some am =>
    if am.tool_calls.isEmpty then
      let hist1 := hist ++ [mkUser COMPLETION_CHECK_PROMPT]
      match svc hist1 with
      | Except.error e => Except.error e
      | Except.ok r =>
        let hist2 := hist1 ++ [mkAssistant r]
        if r.tool_calls.isEmpty && pyIn ("完了") (r.content.getD "") then
          Except.ok (true, hist2, false)
        else
          Except.ok (false, hist2, false)
    else
      let hist1 := runToolCalls tools parse hist am.tool_calls
      match svc hist1 with
      | Except.error e => Except.error e
      | Except.ok r =>
        let hist2 := hist1 ++ [mkAssistant r]
        if r.tool_calls.isEmpty && contentTruthy r.content
            && (pyIn ("完了") (r.content.getD "") || pyIn ("成功") (r.content.getD "")) then
          Except.ok (true, hist2, true)
        else
          Except.ok (false, hist2, true)

/-- agent.py lines 382-427: the bounded iteration loop of `Agent.run`,
counting in `rounds` how many phases processed tool calls.  Falling out of
the loop returns the exhaustion sentinel as a normal value. -/
def agent_loop (svc : List Message → Except String AssistantReply)
    (tools : List ToolDef) (parse : String → Option String) :
    Nat → List Message → Nat → Except String (String × Nat)
  | 0, _, rounds => Except.ok (EXHAUSTION_SENTINEL, rounds)
  | fuel + 1, hist, rounds =>
    match execution_phase svc tools parse hist with
    | Except.error e => Except.error e
    | Except.ok (completed, hist2, usedTools) =>
      let rounds2 := if usedTools then rounds + 1 else rounds
      if completed then
        match svc (hist2 ++ [mkUser FINAL_SUMMARY_PROMPT]) with
        | Except.error e => Except.error e
        | Except.ok r =>
          Except.ok (r.content.getD ("タスクは完了しましたが、要約情報はありません。"), rounds2)
      else agent_loop svc tools parse fuel hist2 rounds2

/-- agent.py lines 145-206 and 376-427: `Agent.run` — planning phase (reset
history, system + user message, one completion call) followed by the
bounded execution loop.  The second component of a successful result is the
number of tool-execution rounds the run performed. -/
def agent_run (svc : List Message → Except String AssistantReply)
    (tools : List ToolDef) (parse : String → Option String)
    (max_iterations : Nat) (prompt : String) : Except String (String × Nat) :=
  let hist0 := [mkSystem SYSTEM_PROMPT, mkUser prompt]
  match svc hist0 with
  | Except.error e => Except.error e
  | Except.ok r0 => agent_loop svc tools parse max_iterations (hist0 ++ [mkAssistant r0]) 0

/- ### Concrete oracle instances used by closed theorems and witnesses -/

/-- An `os.path` table for absolute paths that contain no symlinks, no
`.`/`..` segments and no home markers: every function is the identity on
such paths (matching real `os.path` behaviour on them). -/
def osPlain : Os :=
  { abspath := fun p => p, normpath := fun p => p, realpath := fun p => p,
    dirname := fun _ => "/", expanduser := fun p => p, join := fun a b => a ++ b }

/-- An `os.path` table for a filesystem in which `/sandbox` is a real
directory and `/sandbox/link` is a symlink whose target resolves to
`/outside/secret`: `realpath` follows the symlink, `dirname` of the link is
`/sandbox`, and every other path is already canonical. -/
def osSymlink : Os :=
  { abspath := fun p => p, normpath := fun p => p,
    realpath := fun p => if p == "/sandbox/link" then "/outside/secret" else p,
    dirname := fun p => if p == "/sandbox/link" then "/sandbox" else "/",
    expanduser := fun p => p, join := fun a b => a ++ b }

/-- A file-content oracle: `/s/a.txt` exists and holds the UTF-8 text
`hello`. -/
def readOracle : String → Option String :=
  fun p => if p == "/s/a.txt" then some ("hello") else none

/-- A stand-in for the external `difflib.unified_diff` collaborator, used
where a concrete instantiation is needed. -/
def difflibStub : List String → List String → String → String → List String :=
  fun _ _ _ _ => []

/-- Directory containment in the filesystem sense, following the words of
the claim being checked against the code: path `p` lies inside root `r`
when it equals `r` or sits strictly below it.  (The code instead uses a
plain string-prefix test.) -/
def contained_in (p root : String) : Bool :=
  p == root || pyStartswith p (root ++ "/")

/-- A completion service whose reply to every query carries a tool call. -/
def svcAlwaysTools : List Message → Except String AssistantReply :=
  fun _ => Except.ok
    { content := none,
      tool_calls := [{ id := some ("call1"), fname := ("read_file"), arguments := ("x") }] }

/- ### Helper lemmas -/

theorem leadsList_length_le : ∀ (a l : List Char), leadsList a l = true → a.length ≤ l.length
  | [], _, _ => Nat.zero_le _
  | x :: xs, [], h => by simp [leadsList] at h
  | x :: xs, y :: ys, h => by
    simp only [leadsList, Bool.and_eq_true] at h
    exact Nat.succ_le_succ (leadsList_length_le xs ys h.2)

theorem leadsList_append_left : ∀ (a b l : List Char), leadsList (a ++ b) l = true → leadsList a l = true
  | [], _, _, _ => rfl
  | x :: xs, b, [], h => by simp [leadsList] at h
  | x :: xs, b, y :: ys, h => by
    simp only [List.cons_append, leadsList, Bool.and_eq_true] at h ⊢
    exact ⟨h.1, leadsList_append_left xs b ys h.2⟩

theorem containsSeq_length_le : ∀ (a h : List Char), containsSeq a h = true → a.length ≤ h.length
  | [], _, _ => Nat.zero_le _
  | x :: xs, [], hc => by simp [containsSeq, leadsList] at hc
  | a, c :: rest, hc => by
    simp only [containsSeq, Bool.or_eq_true] at hc
    cases hc with
    | inl h1 => exact leadsList_length_le a (c :: rest) h1
    | inr h2 => exact Nat.le_trans (containsSeq_length_le a rest h2) (Nat.le_succ _)

theorem containsSeq_append_left : ∀ (a b h : List Char), containsSeq (a ++ b) h = true → containsSeq a h = true
  | [], _, [], _ => rfl
  | x :: xs, b, [], hc => by simp [containsSeq, leadsList] at hc
  | a, b, c :: rest, hc => by
    simp only [containsSeq, Bool.or_eq_true] at hc ⊢
    cases hc with
    | inl h1 => exact Or.inl (leadsList_append_left a b _ h1)
    | inr h2 => exact Or.inr (containsSeq_append_left a b rest h2)

theorem hasRunL_mono (h : List Char) {n k : Nat} (hnk : n ≤ k) (hr : hasRunL h k = true) :
    hasRunL h n = true := by
  unfold hasRunL at hr ⊢
  have hrep : List.replicate k backtickChar
      = List.replicate n backtickChar ++ List.replicate (k - n) backtickChar := by
    rw [← List.replicate_add]
    congr 1
    omega
  rw [hrep] at hr
  exact containsSeq_append_left _ _ _ hr

theorem hasRunL_false_of_long (h : List Char) (n : Nat) (hl : h.length < n) :
    hasRunL h n = false := by
  cases he : hasRunL h n with
  | false => rfl
  | true =>
    exfalso
    unfold hasRunL at he
    have hle := containsSeq_length_le _ _ he
    rw [List.length_replicate] at hle
    omega

theorem chooseFromFuel_spec (h : List Char) : ∀ (fuel n : Nat), h.length < n + fuel →
    n ≤ chooseFromFuel h fuel n ∧ hasRunL h (chooseFromFuel h fuel n) = false
  | 0, n, hlt => ⟨Nat.le_refl n, hasRunL_false_of_long h n (by omega)⟩
  | fuel + 1, n, hlt => by
    unfold chooseFromFuel
    cases he : hasRunL h n with
    | true =>
      have ih := chooseFromFuel_spec h fuel (n + 1) (by omega)
      exact ⟨Nat.le_trans (Nat.le_succ n) ih.1, ih.2⟩
    | false => exact ⟨Nat.le_refl n, he⟩

theorem chooseBackticks_spec (diff : String) :
    3 ≤ chooseBackticks diff ∧ hasRunL diff.toList (chooseBackticks diff) = false :=
  chooseFromFuel_spec diff.toList (diff.toList.length + 1) 3 (by omega)

theorem pyIn_ticks (n : Nat) (diff : String) : pyIn (ticks n) diff = hasRunL diff.toList n := rfl

theorem applyOneEdit_exact (current : String) (e : EditOperation)
    (h : pyIn (normalize_line_endings e.oldText) current = true) :
    applyOneEdit current e
      = Except.ok (pyReplace current (normalize_line_endings e.oldText)
          (normalize_line_endings e.newText)) := by
  unfold applyOneEdit
  simp [h]

theorem applyOneEdit_valueError (c : String) (e : EditOperation) (t : String)
    (h : applyOneEdit c e = Except.error (PyError.valueError t)) :
    t = "Could not find exact match for edit:\n" ++ e.oldText := by
  unfold applyOneEdit at h
  split at h
  · exact absurd h (by simp)
  · split at h
    · exact absurd h (by simp)
    · simp only [Except.error.injEq, PyError.valueError.injEq] at h
      exact h.symm

theorem applyAllEdits_valueError_mem : ∀ (edits : List EditOperation) (c t : String),
    applyAllEdits c edits = Except.error (PyError.valueError t) →
    ∃ e, e ∈ edits ∧ t = "Could not find exact match for edit:\n" ++ e.oldText
  | [], c, t, h => by simp [applyAllEdits] at h
  | e :: rest, c, t, h => by
    revert h
    simp only [applyAllEdits]
    cases hone : applyOneEdit c e with
    | error er =>
      intro h
      simp only [Except.error.injEq] at h
      subst h
      exact ⟨e, List.mem_cons_self e rest, applyOneEdit_valueError c e t hone⟩
    | ok next =>
      intro h
      obtain ⟨e2, hmem, ht⟩ := applyAllEdits_valueError_mem rest next t h
      exact ⟨e2, List.mem_cons_of_mem e hmem, ht⟩

theorem lastAssistant_snoc_assistant (hist : List Message) (r : AssistantReply) :
    lastAssistant (hist ++ [mkAssistant r]) = some (mkAssistant r) := by
  unfold lastAssistant
  rw [List.reverse_append]
  simp [mkAssistant, List.find?]

theorem execution_phase_tool_batch
    (svc : List Message → Except String AssistantReply) (tools : List ToolDef)
    (parse : String → Option String) (hist : List Message) (am : Message)
    (hla : lastAssistant hist = some am) (hne : am.tool_calls.isEmpty = false)
    (r : AssistantReply)
    (hsvc1 : svc (runToolCalls tools parse hist am.tool_calls) = Except.ok r)
    (hre : r.tool_calls.isEmpty = false) :
    execution_phase svc tools parse hist =
      Except.ok (false, runToolCalls tools parse hist am.tool_calls ++ [mkAssistant r], true) := by
  unfold execution_phase
  rw [hla]
  simp [hne, hsvc1, hre]

/- ### Claim theorems -/

/-- C1: the spec demands that a symlink inside an allowed root whose target
resolves outside all allowed roots fails validation with `AccessDenied`.
The code instead catches its own `raise ValueError` (filesystem.py line
175) in the surrounding `except Exception` (line 179) and falls through to
the parent-directory fallback, which succeeds because the symlink's parent
directory is inside the sandbox — so `validate_path` returns the symlink
path even though its real target `/outside/secret` is not under
`/sandbox`. -/
theorem symlink_outside_sandbox_passes_validation :
    pyStartswith (osSymlink.realpath ("/sandbox/link")) ("/sandbox") = false ∧
    validate_path ["/sandbox"] osSymlink ("/sandbox/link") = Except.ok ("/sandbox/link") :=
  ⟨rfl, rfl⟩

/-- C2 counterexample: the claim reads "outside every configured allowed
root" as directory containment, but the code tests a plain string prefix
(filesystem.py line 160).  The path `/ab` is not contained in the root
directory `/a`, yet `validate_path` accepts it instead of failing with
`AccessDenied`, because the string `/ab` starts with the string `/a`. -/
theorem prefix_collision_path_not_denied :
    contained_in ("/ab") ("/a") = false ∧
    validate_path ["/a"] osPlain ("/ab") = Except.ok ("/ab") :=
  ⟨rfl, rfl⟩

/-- C2 (amended): for every path whose expanded, absolute, normalized form
does not have any configured allowed root as a string prefix,
`validate_path` fails with the access-denied `ValueError` built at
filesystem.py lines 163-165, naming the absolute path and the allowed
roots. -/
theorem validate_path_denies_unprefixed (allowed : List String) (os : Os) (p : String)
    (h : (allowed.any fun d =>
        pyStartswith (normalize_path os (os.abspath (expand_home os p))) d) = false) :
    validate_path allowed os p =
      Except.error (PyError.valueError
        (accessDeniedMessage allowed (os.abspath (expand_home os p)))) := by
  unfold validate_path
  simp [h]

/-- Witness for the amended C2 theorem at a concrete input. -/
theorem validate_path_denies_unprefixed_witness :
    validate_path ["/a"] osPlain ("/b") =
      Except.error (PyError.valueError (accessDeniedMessage ["/a"] ("/b"))) :=
  validate_path_denies_unprefixed ["/a"] osPlain ("/b") (by decide)

/-- C3: the claimed fuzzy-match edit with indentation adjustment.  On a
file whose content is two lines indented by two spaces and an edit whose
`oldText` matches only after stripping, the code reaches the first
matching window and then executes `potential_match[0].match(r"^\s*")`
(filesystem.py line 318); Python strings have no `match` method, so the
call raises `AttributeError` instead of producing the indentation-adjusted
replacement the claim (and spec) describe, and the file is left
untouched. -/
theorem fuzzy_edit_raises_attribute_error :
    apply_file_edits difflibStub ("file.py") ("  foo\n  bar")
        [{ oldText := "foo\nbar", newText := "baz" }] false
      = (Except.error (PyError.attributeError ("str object has no attribute match")),
         "  foo\n  bar") :=
  rfl

/-- C4: the claim says `read_file` on a validated, existing UTF-8 file
returns the file content.  The embedded `execute_read_file` shows the
code instead raises `TypeError` at the `async with` over the coroutine
returned by `asyncio.to_thread` (filesystem.py line 404): here the path
`/s/a.txt` validates, the file exists with content `hello`, and the
operation still errors without ever reading it. -/
theorem read_file_raises_type_error :
    validate_path ["/s"] osPlain ("/s/a.txt") = Except.ok ("/s/a.txt") ∧
    readOracle ("/s/a.txt") = some ("hello") ∧
    execute_read_file ["/s"] osPlain readOracle ("/s/a.txt")
      = Except.error (PyError.typeError
          ("coroutine object does not support the asynchronous context manager protocol")) :=
  ⟨rfl, rfl, rfl⟩

/-- C5: `apply_file_edits` mutates the on-disk file only on a fully
successful non-dry run; a dry run never mutates; any failing run leaves
the file byte-identical to `raw`; and a `NoMatchFound` failure names the
offending `oldText` of one of the edits. -/
theorem apply_file_edits_frame :
    (∀ (udiff : List String → List String → String → String → List String)
        (fp raw : String) (edits : List EditOperation) (dry : Bool),
        (apply_file_edits udiff fp raw edits dry).2 ≠ raw →
        dry = false ∧ ∃ d, (apply_file_edits udiff fp raw edits dry).1 = Except.ok d) ∧
    (∀ (udiff : List String → List String → String → String → List String)
        (fp raw : String) (edits : List EditOperation),
        (apply_file_edits udiff fp raw edits true).2 = raw) ∧
    (∀ (udiff : List String → List String → String → String → List String)
        (fp raw : String) (edits : List EditOperation) (dry : Bool) (er : PyError),
        (apply_file_edits udiff fp raw edits dry).1 = Except.error er →
        (apply_file_edits udiff fp raw edits dry).2 = raw) ∧
    (∀ (udiff : List String → List String → String → String → List String)
        (fp raw : String) (edits : List EditOperation) (dry : Bool) (t : String),
        (apply_file_edits udiff fp raw edits dry).1 = Except.error (PyError.valueError t) →
        ∃ e, e ∈ edits ∧ t = "Could not find exact match for edit:\n" ++ e.oldText) := by
  refine ⟨?_, ?_, ?_, ?_⟩
  · intro udiff fp raw edits dry hne
    unfold apply_file_edits at hne ⊢
    cases hall : applyAllEdits (normalize_line_endings raw) edits with
    | error er => simp [hall] at hne
    | ok m =>
      simp only [hall] at hne ⊢
      cases dry with
      | true => simp at hne
      | false => exact ⟨rfl, _, rfl⟩
  · intro udiff fp raw edits
    unfold apply_file_edits
    cases hall : applyAllEdits (normalize_line_endings raw) edits with
    | error er => simp [hall]
    | ok m => simp [hall]
  · intro udiff fp raw edits dry er her
    unfold apply_file_edits at her ⊢
    cases hall : applyAllEdits (normalize_line_endings raw) edits with
    | error e2 => simp [hall]
    | ok m => simp [hall] at her
  · intro udiff fp raw edits dry t ht
    unfold apply_file_edits at ht
    cases hall : applyAllEdits (normalize_line_endings raw) edits with
    | error e2 =>
      simp only [hall, Except.error.injEq] at ht
      subst ht
      exact applyAllEdits_valueError_mem edits (normalize_line_endings raw) t hall
    | ok m => simp [hall] at ht

/-- Witness for the C5 frame theorem: a batch whose single edit has no
match leaves the file unchanged, and the error names that edit's
`oldText`. -/
theorem apply_file_edits_frame_witness :
    (apply_file_edits difflibStub ("f") ("x") [{ oldText := "zz", newText := "w" }] false).2
      = ("x") ∧
    (∃ e, e ∈ [({ oldText := "zz", newText := "w" } : EditOperation)] ∧
      ("Could not find exact match for edit:\nzz")
        = "Could not find exact match for edit:\n" ++ e.oldText) :=
  ⟨apply_file_edits_frame.2.2.1 difflibStub ("f") ("x")
      [{ oldText := "zz", newText := "w" }] false
      (PyError.valueError ("Could not find exact match for edit:\nzz")) rfl,
   apply_file_edits_frame.2.2.2 difflibStub ("f") ("x")
      [{ oldText := "zz", newText := "w" }] false
      ("Could not find exact match for edit:\nzz") rfl⟩

/-- C6: when the normalized `oldText` occurs verbatim, the edit step
replaces every occurrence (Python `str.replace`, shown concretely on a
two-occurrence content), and a successful `apply_file_edits` returns the
unified diff computed between the original (normalized) content and the
fully edited content, fenced. -/
theorem exact_match_replaces_every_occurrence :
    (∀ (current : String) (e : EditOperation),
        pyIn (normalize_line_endings e.oldText) current = true →
        applyOneEdit current e =
          Except.ok (pyReplace current (normalize_line_endings e.oldText)
            (normalize_line_endings e.newText))) ∧
    applyOneEdit ("aXbXc") { oldText := "X", newText := "Y" } = Except.ok ("aYbYc") ∧
    (∀ (udiff : List String → List String → String → String → List String)
        (fp raw : String) (e : EditOperation) (dry : Bool),
        pyIn (normalize_line_endings e.oldText) (normalize_line_endings raw) = true →
        apply_file_edits udiff fp raw [e] dry =
          (Except.ok (format_fenced_diff (create_unified_diff udiff
              (normalize_line_endings raw)
              (pyReplace (normalize_line_endings raw) (normalize_line_endings e.oldText)
                (normalize_line_endings e.newText)) fp)),
           if dry then raw
           else pyReplace (normalize_line_endings raw) (normalize_line_endings e.oldText)
             (normalize_line_endings e.newText))) := by
  refine ⟨applyOneEdit_exact, rfl, ?_⟩
  intro udiff fp raw e dry h
  have h1 : applyAllEdits (normalize_line_endings raw) [e]
      = Except.ok (pyReplace (normalize_line_endings raw) (normalize_line_endings e.oldText)
          (normalize_line_endings e.newText)) := by
    simp only [applyAllEdits, applyOneEdit_exact (normalize_line_endings raw) e h]
  unfold apply_file_edits
  simp only [h1]

/-- Witness for the C6 theorem: both occurrences of `X` in `aXbXc` are
replaced and the diff is computed from `aXbXc` to `aYbYc`. -/
theorem exact_match_witness :
    apply_file_edits difflibStub ("f") ("aXbXc") [{ oldText := "X", newText := "Y" }] false
      = (Except.ok (format_fenced_diff (create_unified_diff difflibStub ("aXbXc") ("aYbYc") ("f"))),
         "aYbYc") :=
  exact_match_replaces_every_occurrence.2.2 difflibStub ("f") ("aXbXc")
    { oldText := "X", newText := "Y" } false (by decide)

/-- C7: the fence chosen for a diff is at least three backticks wide,
strictly wider than every backtick run occurring inside the diff (so in
particular the diff does not contain the fence itself), and the formatted
block is the diff wrapped in exactly that fence. -/
theorem fence_longer_than_any_backtick_run (diff : String) :
    3 ≤ chooseBackticks diff ∧
    pyIn (ticks (chooseBackticks diff)) diff = false ∧
    (∀ k, pyIn (ticks k) diff = true → k < chooseBackticks diff) ∧
    format_fenced_diff diff =
      ticks (chooseBackticks diff) ++ "diff\n" ++ diff ++ "\n"
        ++ ticks (chooseBackticks diff) ++ "\n\n" := by
  obtain ⟨h3, hno⟩ := chooseBackticks_spec diff
  refine ⟨h3, ?_, ?_, rfl⟩
  · rw [pyIn_ticks]
    exact hno
  · intro k hk
    rw [pyIn_ticks] at hk
    by_contra hlt
    push_neg at hlt
    have h2 := hasRunL_mono diff.toList hlt hk
    exact Bool.noConfusion (h2.symm.trans hno)

/-- Witness for the C7 theorem on a diff containing a two-backtick run. -/
theorem fence_longer_witness :
    3 ≤ chooseBackticks ("a``b") ∧ 2 < chooseBackticks ("a``b") ∧
    pyIn (ticks (chooseBackticks ("a``b"))) ("a``b") = false :=
  ⟨(fence_longer_than_any_backtick_run ("a``b")).1,
   (fence_longer_than_any_backtick_run ("a``b")).2.2.1 2 (by decide),
   (fence_longer_than_any_backtick_run ("a``b")).2.1⟩

/-- C8: with `max_iterations = 1` and a completion service whose reply to
every query carries tool calls, `run` performs exactly one tool-execution
round and returns the exhaustion sentinel as a normal (`Except.ok`)
result, not a raised error. -/
theorem run_exhausts_after_one_tool_round
    (svc : List Message → Except String AssistantReply) (tools : List ToolDef)
    (parse : String → Option String) (prompt : String)
    (hsvc : ∀ hist, ∃ r, svc hist = Except.ok r ∧ r.tool_calls ≠ []) :
    agent_run svc tools parse 1 prompt = Except.ok (EXHAUSTION_SENTINEL, 1) := by
  obtain ⟨r0, h0, hr0⟩ := hsvc [mkSystem SYSTEM_PROMPT, mkUser prompt]
  have hla := lastAssistant_snoc_assistant [mkSystem SYSTEM_PROMPT, mkUser prompt] r0
  obtain ⟨r1, h1, hr1⟩ := hsvc (runToolCalls tools parse
    ([mkSystem SYSTEM_PROMPT, mkUser prompt] ++ [mkAssistant r0]) (mkAssistant r0).tool_calls)
  have hne : (mkAssistant r0).tool_calls.isEmpty = false := by
    cases hc : r0.tool_calls with
    | nil => exact absurd hc hr0
    | cons a l => simp [mkAssistant, hc]
  have hre : r1.tool_calls.isEmpty = false := by
    cases hc : r1.tool_calls with
    | nil => exact absurd hc hr1
    | cons a l => simp [hc]
  have hph := execution_phase_tool_batch svc tools parse
    ([mkSystem SYSTEM_PROMPT, mkUser prompt] ++ [mkAssistant r0]) (mkAssistant r0)
    hla hne r1 h1 hre
  unfold agent_run
  show (match svc [mkSystem SYSTEM_PROMPT, mkUser prompt] with
      | Except.error e => Except.error e
      | Except.ok r => agent_loop svc tools parse 1
          ([mkSystem SYSTEM_PROMPT, mkUser prompt] ++ [mkAssistant r]) 0)
      = Except.ok (EXHAUSTION_SENTINEL, 1)
  rw [h0]
  show agent_loop svc tools parse (Nat.succ 0)
    ([mkSystem SYSTEM_PROMPT, mkUser prompt] ++ [mkAssistant r0]) 0 = _
  unfold agent_loop
  rw [hph]
  rfl

/-- Witness for the C8 theorem: a concrete always-tool-calling completion
service drives `run` with `max_iterations = 1` to the sentinel after one
tool round. -/
theorem run_exhausts_witness :
    agent_run svcAlwaysTools [] (fun _ => none) 1 ("task")
      = Except.ok (EXHAUSTION_SENTINEL, 1) :=
  run_exhausts_after_one_tool_round svcAlwaysTools [] (fun _ => none) ("task")
    (fun _ => ⟨_, rfl, by decide⟩)

/-- C9: with an empty allowed-directory set, `validate_path` fails with the
access-denied error for every input path over every `os.path` oracle, and
therefore `execute_read_file` (the path every filesystem tool operation
takes before touching storage) also fails for every input. -/
theorem empty_allowed_denies_everything (os : Os) (p : String) :
    validate_path [] os p =
      Except.error (PyError.valueError
        (accessDeniedMessage [] (os.abspath (expand_home os p)))) ∧
    (∀ readF : String → Option String,
      execute_read_file [] os readF p =
        Except.error (PyError.valueError
          (accessDeniedMessage [] (os.abspath (expand_home os p))))) :=
  ⟨rfl, fun _ => rfl⟩

/-- C10: a successful non-dry `apply_file_edits` writes back the
line-ending-normalized content with the edits applied — not a minimal
patch of the raw bytes — so CRLF sequences are rewritten to LF even in
regions no edit touched (shown concretely with an empty edit batch). -/
theorem write_back_is_normalized_content :
    (∀ (udiff : List String → List String → String → String → List String)
        (fp raw : String) (edits : List EditOperation) (res : String),
        applyAllEdits (normalize_line_endings raw) edits = Except.ok res →
        (apply_file_edits udiff fp raw edits false).2 = res) ∧
    (∀ (udiff : List String → List String → String → String → List String)
        (fp : String), (apply_file_edits udiff fp ("a\r\nb\r\nc") [] false).2 = ("a\nb\nc")) ∧
    ("a\nb\nc" : String) ≠ ("a\r\nb\r\nc") := by
  refine ⟨?_, ?_, by decide⟩
  · intro udiff fp raw edits res h
    unfold apply_file_edits
    simp [h]
  · intro udiff fp
    unfold apply_file_edits
    rfl

/-- Witness for the C10 theorem: an empty batch on CRLF content writes the
LF-normalized content back. -/
theorem write_back_normalized_witness :
    (apply_file_edits difflibStub ("f") ("x\r\ny") [] false).2 = ("x\ny") :=
  write_back_is_normalized_content.1 difflibStub ("f") ("x\r\ny") [] ("x\ny") rfl

/-- Witness for the C9 theorem at a concrete oracle and path. -/
theorem empty_allowed_denies_witness :
    validate_path [] osPlain ("/b") =
      Except.error (PyError.valueError (accessDeniedMessage [] ("/b"))) :=
  (empty_allowed_denies_everything osPlain ("/b")).1
